import Mathlib

/-
Shallow embedding of the donation-lifecycle core of `src/app.py`
(food-donation matching app): the donation record and its four lifecycle
transitions, the collector nearby-matching filter, and the per-user
notification "seen" ledger.  Each definition is annotated with the
`app.py` lines it embeds.
-/

namespace NurishHub

/-- Donation status, the closed enumeration used throughout `app.py`
("active" / "accepted" / "picked_up" / "cancelled"). -/
inductive Status where
  | active
  | accepted
  | picked_up
  | cancelled
deriving DecidableEq, Repr, BEq

/-- A donation record, with the fields created at `app.py:820-837`
(new_donation) and normalised by `load_donations` (`app.py:87-138`).
Coordinates are nullable; collector fields and the three event
timestamps are nullable; `created_at` is always present (set at
creation, defaulted by `load_donations`). -/
structure Donation where
  id : String
  donor : String
  phone : String
  food : String
  quantity : String
  availability : String
  location : String
  lat : Option ℚ
  lon : Option ℚ
  status : Status
  collector_name : Option String
  collector_phone : Option String
  created_at : ℕ
  accepted_at : Option ℕ
  picked_up_at : Option ℕ
  cancelled_at : Option ℕ
deriving DecidableEq, Repr

/-- Radius constant `NEARBY_RADIUS_KM = 10` (`app.py:31`). -/
def NEARBY_RADIUS_KM : ℚ := 10

/-- Body of the accept loop (`app.py:1078-1084`): a record is mutated
iff its id matches and its status is exactly "active"; on match the
status becomes accepted, the collector identity fields are set and
`accepted_at` is set to the current time (`created_at` is only
`setdefault`-ed, hence untouched since it is always present). -/
def acceptRecord (did cname cphone : String) (t : ℕ) (d : Donation) : Donation :=
  if d.id = did ∧ d.status = Status.active then
    { d with status := Status.accepted
             collector_name := some cname
             collector_phone := some cphone
             accepted_at := some t }
  else d

/-- The accept click handler iterates the whole pool (`app.py:1078-1085`). -/
def acceptPool (did cname cphone : String) (t : ℕ) (pool : List Donation) : List Donation :=
  pool.map (acceptRecord did cname cphone t)

/-- Body of the confirm-pickup loop (`app.py:1091-1094`, repeated at
`app.py:1140-1143`): mutated iff id matches, status is "accepted" and
the stored collector phone equals the requesting collector. -/
def confirmPickupRecord (did me : String) (t : ℕ) (d : Donation) : Donation :=
  if d.id = did ∧ d.status = Status.accepted ∧ d.collector_phone = some me then
    { d with status := Status.picked_up
             picked_up_at := some t }
  else d

/-- The confirm-pickup click handler over the whole pool (`app.py:1091-1095`). -/
def confirmPickupPool (did me : String) (t : ℕ) (pool : List Donation) : List Donation :=
  pool.map (confirmPickupRecord did me t)

/-- Body of the cancel-acceptance loop (`app.py:1101-1106`, repeated at
`app.py:1149-1154`): mutated iff id matches, status is "accepted" and
the stored collector phone equals the requesting collector; reverts to
active, clears both collector fields and `accepted_at`. -/
def cancelAcceptRecord (did me : String) (d : Donation) : Donation :=
  if d.id = did ∧ d.status = Status.accepted ∧ d.collector_phone = some me then
    { d with status := Status.active
             collector_name := none
             collector_phone := none
             accepted_at := none }
  else d

/-- The cancel-acceptance click handler over the whole pool (`app.py:1101-1107`). -/
def cancelAcceptPool (did me : String) (pool : List Donation) : List Donation :=
  pool.map (cancelAcceptRecord did me)

/-- Body of the donor cancel loop (`app.py:712-715`): the loop itself
matches on id only; status becomes cancelled and `cancelled_at` is set. -/
def cancelRecord (did : String) (t : ℕ) (d : Donation) : Donation :=
  if d.id = did then
    { d with status := Status.cancelled
             cancelled_at := some t }
  else d

/-- The donations the donor page offers a cancel button for
(`app.py:624-632`, `app.py:699-711`): donations whose donor phone is not
blocked, belongs to the requesting donor, and whose status is active. -/
def donorActiveDonations (pool : List Donation) (blocked : List String) (phone : String) :
    List Donation :=
  pool.filter fun d => decide (d.phone ∉ blocked ∧ d.phone = phone ∧ d.status = Status.active)

/-- The donor cancel operation as the page exposes it
(`app.py:699-717`): the cancel button exists only for a donation listed
among the active donations of the donor; clicking it runs the id-matching
loop over the whole pool and persists. If no such button exists for
`did` the pool is unchanged. -/
def donorCancel (pool : List Donation) (blocked : List String) (phone did : String) (t : ℕ) :
    List Donation :=
  if (donorActiveDonations pool blocked phone).any (fun d => decide (d.id = did)) then
    pool.map (cancelRecord did t)
  else pool

/-- A nearby-query result entry when an origin is set: the donation copy
plus the `distance_km` field added at `app.py:976-977` (rounded to two
decimals). -/
structure NearbyEntry where
  don : Donation
  distance_km : ℚ
deriving DecidableEq, Repr

/-- Round a distance to 2 decimal places (`round(dist, 2)`, `app.py:977`). -/
def round2 (q : ℚ) : ℚ := (round (q * 100) : ℤ) / 100

/-- The nearby filter when the collector has set an origin
(`app.py:956-978`): skip records lacking a latitude or longitude (None
check only), skip statuses other than active/accepted, skip donations
accepted by a different collector, compute the distance from the origin
(delegated in the source to the external geopy `geodesic` library, here
an abstract distance function `dist`), and keep the record iff the
unrounded distance is at most `NEARBY_RADIUS_KM`, annotating it with the
rounded distance. -/
def nearbyDonorsWithOrigin (dist : ℚ × ℚ → ℚ × ℚ → ℚ) (origin : ℚ × ℚ) (me : String)
    (pool : List Donation) : List NearbyEntry :=
  pool.filterMap fun d =>
    match d.lat, d.lon with
    | some la, some lo =>
        if d.status = Status.active ∨ d.status = Status.accepted then
          if d.status = Status.accepted ∧ d.collector_phone ≠ some me then none
          else if dist origin (la, lo) ≤ NEARBY_RADIUS_KM then
            some ⟨d, round2 (dist origin (la, lo))⟩
          else none
        else none
    | _, _ => none

/-- Python truthiness of an optional coordinate, as used by the
no-origin branch `if d.get("lat") and d.get("lon")` (`app.py:983`):
None is falsy and so is the number 0. -/
def truthyCoord : Option ℚ → Bool
  | none => false
  | some x => decide (x ≠ 0)

/-- The nearby fallback when no origin is set (`app.py:979-984`): all
active donations plus donations accepted by the requesting collector,
unfiltered by distance, but only those whose lat and lon are truthy. -/
def nearbyDonorsNoOrigin (me : String) (pool : List Donation) : List Donation :=
  pool.filter fun d =>
    (decide (d.status = Status.active) ||
      (decide (d.status = Status.accepted) && decide (d.collector_phone = some me))) &&
    truthyCoord d.lat && truthyCoord d.lon

/-- Per-user notification-seen ledger: the nested dict
`seen[role_bucket][donation_id][event]` of `users.json`
(`app.py:143-157`) modelled as its lookup function; an absent entry is
false (`app.py:321-326`). -/
structure UserRec where
  seen : String → String → String → Bool

/-- The users table (`st.session_state.users`), keyed by phone. -/
def Users : Type := String → Option UserRec

/-- `mark_seen` (`app.py:311-319`): no-op for an unknown phone, else set
the (role bucket, donation id, event) flag to true. -/
def mark_seen (phone role did ev : String) (users : Users) : Users :=
  fun p =>
    if p = phone then
      (users p).map fun u =>
        ⟨fun r d e => if r = role ∧ d = did ∧ e = ev then true else u.seen r d e⟩
    else users p

/-- `is_seen` (`app.py:321-326`): false for an unknown phone or an
absent entry. -/
def is_seen (phone role did ev : String) (users : Users) : Bool :=
  match users phone with
  | none => false
  | some u => u.seen role did ev

/-- `clear_seen_for_donation` (`app.py:328-335`): pops the whole
per-donation event dict for one role bucket, so every event of that
(role bucket, donation id) becomes unseen. -/
def clear_seen_for_donation (phone role did : String) (users : Users) : Users :=
  fun p =>
    if p = phone then
      (users p).map fun u =>
        ⟨fun r d e => if r = role ∧ d = did then false else u.seen r d e⟩
    else users p

/-- The shared session state relevant to the lifecycle claims: the
donation pool (`st.session_state.donations`) and the users table
(`st.session_state.users`). -/
structure AppState where
  donations : List Donation
  users : Users

/-- The accept click handler as a step on the whole app state: it
mutates only `st.session_state.donations` (`app.py:1078-1085`). -/
def stepAccept (did cname cphone : String) (t : ℕ) (s : AppState) : AppState :=
  { s with donations := acceptPool did cname cphone t s.donations }

/-- The confirm-pickup click handler as a step on the whole app state
(`app.py:1091-1095`). -/
def stepConfirmPickup (did me : String) (t : ℕ) (s : AppState) : AppState :=
  { s with donations := confirmPickupPool did me t s.donations }

/-- The cancel-acceptance click handler as a step on the whole app state
(`app.py:1101-1107`). -/
def stepCancelAccept (did me : String) (s : AppState) : AppState :=
  { s with donations := cancelAcceptPool did me s.donations }

/-- The donor cancel click handler as a step on the whole app state
(`app.py:708-717`). -/
def stepDonorCancel (blocked : List String) (phone did : String) (t : ℕ) (s : AppState) :
    AppState :=
  { s with donations := donorCancel s.donations blocked phone did t }

/-- The donor page shows an unseen "accepted by collector" banner for a
donation iff the donation is among the visible accepted donations of
donations and the "accepted" event is not marked seen
(`app.py:624-655`). -/
def donorUnseenAcceptedBanner (blocked : List String) (phone did : String) (s : AppState) :
    Bool :=
  (s.donations.any fun d =>
      decide (d.phone ∉ blocked ∧ d.phone = phone ∧ d.status = Status.accepted ∧ d.id = did)) &&
  ! is_seen phone "donor" did "accepted" s.users

/-- Whether an accept click on `did` finds a record to transition
(`app.py:1079`); the source displays a success message after the loop
regardless (`app.py:1086`), so this predicate is not surfaced to the
user. -/
def acceptMatches (pool : List Donation) (did : String) : Bool :=
  pool.any fun d => decide (d.id = did ∧ d.status = Status.active)

/-- Persistence of the pool is a whole-file replace
(`save_json`, `app.py:81-85`): when two sessions save one after the
other, the later write is the file content; nothing merges or detects
the conflict. -/
def lastWriteWins (_w1 w2 : List Donation) : List Donation := w2

/-- A concrete active donation used to instantiate hypothesis-bearing
theorems. -/
def sampleActive : Donation :=
  { id := "d1", donor := "Dona", phone := "999", food := "rice", quantity := "5 kg",
    availability := "9 PM", location := "MG Road", lat := some 13, lon := some 77,
    status := Status.active, collector_name := none, collector_phone := none,
    created_at := 1, accepted_at := none, picked_up_at := none, cancelled_at := none }

/-- The same donation after collector "111" accepted it at time 5. -/
def sampleAcceptedMine : Donation :=
  { sampleActive with
      status := Status.accepted
      collector_name := some "Alice"
      collector_phone := some "111"
      accepted_at := some 5 }

/-- A concrete users table holding one user with an empty seen ledger. -/
def sampleUsers : Users :=
  fun p => if p = "999" then some ⟨fun _ _ _ => false⟩ else none

/-- A concrete users table where donor "999" has marked the accepted
event of donation "d1" as seen. -/
def seenUsers : Users :=
  mark_seen "999" "donor" "d1" "accepted" sampleUsers

/-- A rational stand-in for the geodesic distance restricted to points
on the equator: WGS-84 arc length of the longitude difference, about
111.319491 km per degree.  The source delegates the metric to the
external geopy library; claims about the filter are proved for an
arbitrary distance function and instantiated with this one. -/
def distEq : ℚ × ℚ → ℚ × ℚ → ℚ :=
  fun p q => |q.2 - p.2| * (111319491 / 1000000)

/-- An active donation on the equator about 9.91 km east of (0,0). -/
def sampleGeoNear : Donation :=
  { sampleActive with
      id := "g1"
      lat := some 0
      lon := some (89 / 1000) }

/-- An active donation on the equator about 10.02 km east of (0,0). -/
def sampleGeoFar : Donation :=
  { sampleActive with
      id := "g2"
      lat := some 0
      lon := some (9 / 100) }

/-- A donation accepted by collector "111", about 111 km east of (0,0). -/
def farAcceptedMine : Donation :=
  { sampleActive with
      id := "f1"
      status := Status.accepted
      collector_name := some "Alice"
      collector_phone := some "111"
      accepted_at := some 5
      lat := some 0
      lon := some 1 }

/-- An active donation whose geocoded latitude is exactly 0. -/
def zeroLatActive : Donation :=
  { sampleActive with
      id := "z1"
      lat := some 0
      lon := some 20 }

/-- Soundness of the origin-set nearby filter: every returned entry
comes from the pool, has resolved coordinates, passes the visibility
policy, lies within the radius by the unrounded distance, and carries
the rounded distance annotation. -/
theorem mem_nearbyWithOrigin (dist : ℚ × ℚ → ℚ × ℚ → ℚ) (origin : ℚ × ℚ) (me : String)
    (pool : List Donation) (e : NearbyEntry)
    (he : e ∈ nearbyDonorsWithOrigin dist origin me pool) :
    e.don ∈ pool ∧
    ∃ la lo, e.don.lat = some la ∧ e.don.lon = some lo ∧
      (e.don.status = Status.active ∨
        (e.don.status = Status.accepted ∧ e.don.collector_phone = some me)) ∧
      dist origin (la, lo) ≤ NEARBY_RADIUS_KM ∧
      e.distance_km = round2 (dist origin (la, lo)) := by
  unfold nearbyDonorsWithOrigin at he
  obtain ⟨d, hdmem, hfd⟩ := List.mem_filterMap.1 he
  split at hfd
  case _ la lo hla hlo =>
    split_ifs at hfd with h1 h2 h3
    · injection hfd with hfd
      subst hfd
      refine ⟨hdmem, la, lo, hla, hlo, ?_, h3, rfl⟩
      rcases h1 with h | h
      · exact Or.inl h
      · exact Or.inr ⟨h, not_not.1 fun hc => h2 ⟨h, hc⟩⟩
  case _ x y hmatch =>
    exact absurd hfd (by simp)

/-- Completeness of the origin-set nearby filter: a pool donation with
resolved coordinates that passes the visibility policy and lies within
the radius appears in the result, annotated with the rounded distance. -/
theorem nearbyWithOrigin_mem (dist : ℚ × ℚ → ℚ × ℚ → ℚ) (origin : ℚ × ℚ) (me : String)
    (pool : List Donation) (d : Donation) (la lo : ℚ) (hd : d ∈ pool)
    (hla : d.lat = some la) (hlo : d.lon = some lo)
    (hvis : d.status = Status.active ∨
      (d.status = Status.accepted ∧ d.collector_phone = some me))
    (hdist : dist origin (la, lo) ≤ NEARBY_RADIUS_KM) :
    NearbyEntry.mk d (round2 (dist origin (la, lo))) ∈
      nearbyDonorsWithOrigin dist origin me pool := by
  unfold nearbyDonorsWithOrigin
  refine List.mem_filterMap.2 ⟨d, hd, ?_⟩
  rw [hla, hlo]
  have h1 : d.status = Status.active ∨ d.status = Status.accepted := hvis.imp id And.left
  have h2 : ¬(d.status = Status.accepted ∧ d.collector_phone ≠ some me) := by
    rcases hvis with h | ⟨h, hc⟩
    · rintro ⟨ha, -⟩
      rw [h] at ha
      exact Status.noConfusion ha
    · rintro ⟨-, hne⟩
      exact hne hc
  simp only [if_pos h1, if_neg h2, if_pos hdist]

/-- Membership in the no-origin fallback view: exactly the pool
donations passing the visibility policy whose coordinates are truthy in
the Python sense (non-null and non-zero). -/
theorem mem_nearbyNoOrigin_iff (me : String) (pool : List Donation) (d : Donation) :
    d ∈ nearbyDonorsNoOrigin me pool ↔
      d ∈ pool ∧
      (d.status = Status.active ∨
        (d.status = Status.accepted ∧ d.collector_phone = some me)) ∧
      truthyCoord d.lat = true ∧ truthyCoord d.lon = true := by
  unfold nearbyDonorsNoOrigin
  rw [List.mem_filter]
  simp [Bool.and_eq_true, Bool.or_eq_true, decide_eq_true_eq, and_assoc]

/-- C2: the accept operation moves a record to accepted only if its
current status is exactly active; on success it sets the collector
identity fields and `accepted_at` and leaves `created_at` untouched; on
a record whose status is not active it leaves the record unchanged. -/
theorem accept_transition_correct (d : Donation) (did cname cphone : String) (t : ℕ) :
    (d.id = did → d.status = Status.active →
      acceptRecord did cname cphone t d =
        { d with status := Status.accepted
                 collector_name := some cname
                 collector_phone := some cphone
                 accepted_at := some t } ∧
      (acceptRecord did cname cphone t d).created_at = d.created_at) ∧
    (d.status ≠ Status.active → acceptRecord did cname cphone t d = d) := by
  unfold acceptRecord
  constructor
  · intro hid hact
    rw [if_pos ⟨hid, hact⟩]
    exact ⟨rfl, rfl⟩
  · intro hne
    rw [if_neg (fun h => hne h.2)]

/-- Witness for C2 at a concrete active donation. -/
theorem accept_transition_correct_witness :
    acceptRecord "d1" "Alice" "111" 5 sampleActive =
      { sampleActive with
          status := Status.accepted
          collector_name := some "Alice"
          collector_phone := some "111"
          accepted_at := some 5 } ∧
    (acceptRecord "d1" "Alice" "111" 5 sampleActive).created_at = sampleActive.created_at :=
  (accept_transition_correct sampleActive "d1" "Alice" "111" 5).1 rfl rfl

/-- C5: confirm pickup moves a record to picked_up and sets
`picked_up_at` only when its status is accepted and the stored collector
phone equals the requester; for a non-matching collector or any other
status the record is unchanged. -/
theorem confirm_pickup_correct (d : Donation) (did me : String) (t : ℕ) :
    (d.id = did → d.status = Status.accepted → d.collector_phone = some me →
      confirmPickupRecord did me t d =
        { d with
            status := Status.picked_up
            picked_up_at := some t }) ∧
    (d.status ≠ Status.accepted → confirmPickupRecord did me t d = d) ∧
    (d.collector_phone ≠ some me → confirmPickupRecord did me t d = d) := by
  unfold confirmPickupRecord
  refine ⟨fun hid hst hc => ?_, fun hne => ?_, fun hne => ?_⟩
  · rw [if_pos ⟨hid, hst, hc⟩]
  · rw [if_neg (fun h => hne h.2.1)]
  · rw [if_neg (fun h => hne h.2.2)]

/-- Witness for C5 at a concrete accepted donation with its collector. -/
theorem confirm_pickup_correct_witness :
    confirmPickupRecord "d1" "111" 9 sampleAcceptedMine =
      { sampleAcceptedMine with
          status := Status.picked_up
          picked_up_at := some 9 } :=
  (confirm_pickup_correct sampleAcceptedMine "d1" "111" 9).1 rfl (by rfl) (by rfl)

/-- C4: for an active record, accept by a collector followed by
cancel-acceptance by that same collector restores the record to its
pre-accept state except that the collector fields and `accepted_at` are
null (status is back to active, every other field keeps its pre-accept
value). -/
theorem accept_cancel_reversible (d : Donation) (did cname cphone : String) (t : ℕ)
    (hid : d.id = did) (hact : d.status = Status.active) :
    cancelAcceptRecord did cphone (acceptRecord did cname cphone t d) =
      { d with
          collector_name := none
          collector_phone := none
          accepted_at := none } ∧
    (cancelAcceptRecord did cphone (acceptRecord did cname cphone t d)).status =
      Status.active := by
  unfold acceptRecord
  rw [if_pos ⟨hid, hact⟩]
  unfold cancelAcceptRecord
  rw [if_pos ⟨hid, rfl, rfl⟩]
  rw [← hact]
  exact ⟨rfl, rfl⟩

/-- Witness for C4 at a concrete active donation. -/
theorem accept_cancel_reversible_witness :
    cancelAcceptRecord "d1" "111" (acceptRecord "d1" "Alice" "111" 5 sampleActive) =
      { sampleActive with
          collector_name := none
          collector_phone := none
          accepted_at := none } ∧
    (cancelAcceptRecord "d1" "111" (acceptRecord "d1" "Alice" "111" 5 sampleActive)).status =
      Status.active :=
  accept_cancel_reversible sampleActive "d1" "Alice" "111" 5 rfl rfl

/-- C3: the donor cancel operation cancels a donation (setting
`cancelled_at`) only when the donation is currently active and the
requester is its donor; attempted on a donation in any other status, or
by a non-donor, it leaves the pool entirely unchanged.  Donation ids
are unique in the pool, the invariant `load_donations` enforces
(`app.py:93-98`). -/
theorem donor_cancel_correct (pool : List Donation) (blocked : List String)
    (phone did : String) (t : ℕ)
    (huniq : (pool.map Donation.id).Nodup) (d : Donation) (hd : d ∈ pool)
    (hid : d.id = did) :
    ((d.status = Status.active ∧ d.phone = phone ∧ phone ∉ blocked) →
      donorCancel pool blocked phone did t = pool.map (cancelRecord did t) ∧
      cancelRecord did t d =
        { d with
            status := Status.cancelled
            cancelled_at := some t } ∧
      ∀ e ∈ pool, e.id ≠ did → cancelRecord did t e = e) ∧
    (d.status ≠ Status.active → donorCancel pool blocked phone did t = pool) ∧
    (d.phone ≠ phone → donorCancel pool blocked phone did t = pool) := by
  have inj := List.inj_on_of_nodup_map huniq
  refine ⟨fun hpos => ?_, fun hne => ?_, fun hne => ?_⟩
  · have hmem : d ∈ donorActiveDonations pool blocked phone := by
      unfold donorActiveDonations
      rw [List.mem_filter]
      exact ⟨hd, decide_eq_true ⟨by rw [hpos.2.1]; exact hpos.2.2, hpos.2.1, hpos.1⟩⟩
    have hguard : (donorActiveDonations pool blocked phone).any
        (fun e => decide (e.id = did)) = true := by
      rw [List.any_eq_true]
      exact ⟨d, hmem, decide_eq_true hid⟩
    refine ⟨?_, ?_, ?_⟩
    · unfold donorCancel
      rw [hguard]
      simp
    · unfold cancelRecord
      rw [if_pos hid]
    · intro e _ hne
      unfold cancelRecord
      rw [if_neg hne]
  · unfold donorCancel
    have hguard : (donorActiveDonations pool blocked phone).any
        (fun e => decide (e.id = did)) = false := by
      rw [List.any_eq_false]
      intro e he
      unfold donorActiveDonations at he
      rw [List.mem_filter] at he
      have hprops := of_decide_eq_true he.2
      intro heq
      have : e = d := inj he.1 hd (by rw [of_decide_eq_true heq, hid])
      exact hne (this ▸ hprops.2.2)
    rw [hguard]
    simp
  · unfold donorCancel
    have hguard : (donorActiveDonations pool blocked phone).any
        (fun e => decide (e.id = did)) = false := by
      rw [List.any_eq_false]
      intro e he
      unfold donorActiveDonations at he
      rw [List.mem_filter] at he
      have hprops := of_decide_eq_true he.2
      intro heq
      have : e = d := inj he.1 hd (by rw [of_decide_eq_true heq, hid])
      exact hne (this ▸ hprops.2.1)
    rw [hguard]
    simp

/-- Witness for C3: cancelling a concrete active donation as its donor. -/
theorem donor_cancel_correct_witness :
    donorCancel [sampleActive] [] "999" "d1" 7 = [sampleActive].map (cancelRecord "d1" 7) ∧
    cancelRecord "d1" 7 sampleActive =
      { sampleActive with
          status := Status.cancelled
          cancelled_at := some 7 } := by
  have h := (donor_cancel_correct [sampleActive] [] "999" "d1" 7 (by simp) sampleActive
    (by simp) rfl).1 ⟨rfl, rfl, by simp⟩
  exact ⟨h.1, h.2.1⟩

/-- C9: for a known user, `mark_seen` is idempotent (calling it twice
yields the same users table as calling it once), afterwards `is_seen` is
true, and `clear_seen_for_donation` followed by `mark_seen` round-trips,
leaving `is_seen` true for that event. -/
theorem mark_seen_idempotent_roundtrip (users : Users) (phone role did ev : String)
    (u : UserRec) (hu : users phone = some u) :
    mark_seen phone role did ev (mark_seen phone role did ev users) =
      mark_seen phone role did ev users ∧
    is_seen phone role did ev (mark_seen phone role did ev users) = true ∧
    is_seen phone role did ev
      (mark_seen phone role did ev (clear_seen_for_donation phone role did users)) = true := by
  refine ⟨?_, ?_, ?_⟩
  · funext p
    by_cases hp : p = phone
    · cases husers : users phone with
      | none => simp [mark_seen, hp, husers]
      | some u0 =>
          simp only [mark_seen, hp, husers, eq_self_iff_true, if_true, ite_true,
            Option.map_some', Option.some.injEq, UserRec.mk.injEq]
          funext r dd e
          by_cases hc : r = role ∧ dd = did ∧ e = ev
          · simp [hc]
          · simp [hc]
    · simp [mark_seen, hp]
  · simp only [is_seen, mark_seen, if_pos rfl, hu, Option.map_some']
    simp
  · simp only [is_seen, mark_seen, clear_seen_for_donation, if_pos rfl, hu,
      Option.map_some']
    simp

/-- Witness for C9 at the concrete users table. -/
theorem mark_seen_idempotent_roundtrip_witness :
    is_seen "999" "donor" "d1" "accepted"
      (mark_seen "999" "donor" "d1" "accepted" sampleUsers) = true ∧
    is_seen "999" "donor" "d1" "accepted"
      (mark_seen "999" "donor" "d1" "accepted"
        (clear_seen_for_donation "999" "donor" "d1" sampleUsers)) = true :=
  ((mark_seen_idempotent_roundtrip sampleUsers "999" "donor" "d1" "accepted"
      ⟨fun _ _ _ => false⟩ (by simp [sampleUsers])).2.1).symm ▸
    ⟨(mark_seen_idempotent_roundtrip sampleUsers "999" "donor" "d1" "accepted"
        ⟨fun _ _ _ => false⟩ (by simp [sampleUsers])).2.1,
     (mark_seen_idempotent_roundtrip sampleUsers "999" "donor" "d1" "accepted"
        ⟨fun _ _ _ => false⟩ (by simp [sampleUsers])).2.2⟩

/-- C10: no lifecycle transition modifies the seen ledger of any user; in
particular cancel-acceptance does not clear the donor seen flag for
the accepted event, so after cancel-acceptance followed by a later
accept by any collector, `is_seen` for the accepted event is still true
and the donor page surfaces no fresh unseen accepted banner. -/
theorem transitions_preserve_seen_ledger (s : AppState) (blocked : List String)
    (donor did c1 cname2 c2 : String) (t : ℕ)
    (hseen : is_seen donor "donor" did "accepted" s.users = true) :
    (stepAccept did cname2 c2 t s).users = s.users ∧
    (stepConfirmPickup did c1 t s).users = s.users ∧
    (stepCancelAccept did c1 s).users = s.users ∧
    (stepDonorCancel blocked donor did t s).users = s.users ∧
    is_seen donor "donor" did "accepted"
      (stepAccept did cname2 c2 t (stepCancelAccept did c1 s)).users = true ∧
    donorUnseenAcceptedBanner blocked donor did
      (stepAccept did cname2 c2 t (stepCancelAccept did c1 s)) = false := by
  refine ⟨rfl, rfl, rfl, rfl, hseen, ?_⟩
  unfold donorUnseenAcceptedBanner
  have husers : (stepAccept did cname2 c2 t (stepCancelAccept did c1 s)).users = s.users := rfl
  rw [husers, hseen]
  simp

/-- Witness for C10: a concrete state where the donor has already seen
the accepted event. -/
theorem transitions_preserve_seen_ledger_witness :
    is_seen "999" "donor" "d1" "accepted"
      (stepAccept "d1" "Bob" "222" 9
        (stepCancelAccept "d1" "111" ⟨[sampleAcceptedMine], seenUsers⟩)).users = true ∧
    donorUnseenAcceptedBanner [] "999" "d1"
      (stepAccept "d1" "Bob" "222" 9
        (stepCancelAccept "d1" "111" ⟨[sampleAcceptedMine], seenUsers⟩)) = false :=
  ⟨(transitions_preserve_seen_ledger ⟨[sampleAcceptedMine], seenUsers⟩ [] "999" "d1"
      "111" "Bob" "222" 9 (by simp [seenUsers, sampleUsers, mark_seen, is_seen])).2.2.2.2.1,
   (transitions_preserve_seen_ledger ⟨[sampleAcceptedMine], seenUsers⟩ [] "999" "d1"
      "111" "Bob" "222" 9 (by simp [seenUsers, sampleUsers, mark_seen, is_seen])).2.2.2.2.2⟩

/-- C6: with an origin set, a candidate is included in the nearby query
iff the distance from the origin to its resolved coordinates is at most
`NEARBY_RADIUS_KM`; the inclusion test uses the unrounded distance, the
annotation attached to each included result is the distance rounded to
two decimals, and candidates lacking resolved coordinates are excluded.
The distance metric is the one the source delegates to geopy, here an
arbitrary function. -/
theorem geo_filter_correct (dist : ℚ × ℚ → ℚ × ℚ → ℚ) (origin : ℚ × ℚ) (me : String)
    (pool : List Donation) :
    (∀ e ∈ nearbyDonorsWithOrigin dist origin me pool,
        e.don ∈ pool ∧
        ∃ la lo, e.don.lat = some la ∧ e.don.lon = some lo ∧
          (e.don.status = Status.active ∨
            (e.don.status = Status.accepted ∧ e.don.collector_phone = some me)) ∧
          dist origin (la, lo) ≤ NEARBY_RADIUS_KM ∧
          e.distance_km = round2 (dist origin (la, lo))) ∧
    (∀ d ∈ pool, ∀ la lo : ℚ, d.lat = some la → d.lon = some lo →
        (d.status = Status.active ∨
          (d.status = Status.accepted ∧ d.collector_phone = some me)) →
        dist origin (la, lo) ≤ NEARBY_RADIUS_KM →
        NearbyEntry.mk d (round2 (dist origin (la, lo))) ∈
          nearbyDonorsWithOrigin dist origin me pool) :=
  ⟨fun e he => mem_nearbyWithOrigin dist origin me pool e he,
   fun d hd la lo hla hlo hvis hdist =>
     nearbyWithOrigin_mem dist origin me pool d la lo hd hla hlo hvis hdist⟩

/-- Witness for C6: with origin (0,0) on the equator, a candidate 9.91
km east is included with annotation 9.91, and a candidate at longitude
0.09 degrees (10.0188 km, the distance the spec estimates as about 10
km) is excluded: inclusion flips around the 10 km threshold. -/
theorem geo_filter_correct_witness :
    NearbyEntry.mk sampleGeoNear (round2 (distEq (0, 0) (0, 89 / 1000))) ∈
      nearbyDonorsWithOrigin distEq (0, 0) "222" [sampleGeoNear, sampleGeoFar] ∧
    nearbyDonorsWithOrigin distEq (0, 0) "222" [sampleGeoFar] = [] :=
  ⟨(geo_filter_correct distEq (0, 0) "222" [sampleGeoNear, sampleGeoFar]).2
      sampleGeoNear (by simp) 0 (89 / 1000) rfl rfl (Or.inl rfl)
      (by norm_num [distEq, NEARBY_RADIUS_KM, abs_of_nonneg]),
   by
    have h : ¬ distEq 0 ((0 : ℚ), (9 / 100 : ℚ)) ≤ NEARBY_RADIUS_KM := by
      norm_num [distEq, NEARBY_RADIUS_KM, abs_of_nonneg]
    simp [nearbyDonorsWithOrigin, sampleGeoFar, sampleActive, h]⟩

/-- C7 counterexample: a donation accepted by collector "111" that lies
111 km from the origin of that collector is absent from that same
collector nearby-query results, refuting the claim that an accepted
donation is present in the results of its collector regardless of
distance. -/
theorem visibility_scoping_counterexample :
    farAcceptedMine.status = Status.accepted ∧
    farAcceptedMine.collector_phone = some "111" ∧
    nearbyDonorsWithOrigin distEq (0, 0) "111" [farAcceptedMine] = [] :=
  ⟨rfl, rfl, by
    have h : ¬ distEq 0 ((0 : ℚ), (1 : ℚ)) ≤ NEARBY_RADIUS_KM := by
      norm_num [distEq, NEARBY_RADIUS_KM, abs_of_nonneg]
    simp [nearbyDonorsWithOrigin, farAcceptedMine, sampleActive, h]⟩

/-- C7 as amended: in both nearby-query branches every result is active
or accepted by the requester (so picked_up and cancelled donations never
appear); a donation accepted by a different collector never appears in
either branch; and a donation accepted by the requester appears in the
origin-set results when it has resolved coordinates and lies within the
radius. -/
theorem visibility_scoping_amended (dist : ℚ × ℚ → ℚ × ℚ → ℚ) (origin : ℚ × ℚ)
    (me : String) (pool : List Donation) :
    (∀ e ∈ nearbyDonorsWithOrigin dist origin me pool,
        (e.don.status = Status.active ∨
          (e.don.status = Status.accepted ∧ e.don.collector_phone = some me)) ∧
        e.don.status ≠ Status.picked_up ∧ e.don.status ≠ Status.cancelled) ∧
    (∀ d ∈ nearbyDonorsNoOrigin me pool,
        (d.status = Status.active ∨
          (d.status = Status.accepted ∧ d.collector_phone = some me)) ∧
        d.status ≠ Status.picked_up ∧ d.status ≠ Status.cancelled) ∧
    (∀ d : Donation, d.status = Status.accepted → d.collector_phone ≠ some me →
        (∀ e ∈ nearbyDonorsWithOrigin dist origin me pool, e.don ≠ d) ∧
        d ∉ nearbyDonorsNoOrigin me pool) ∧
    (∀ d ∈ pool, ∀ la lo : ℚ, d.status = Status.accepted → d.collector_phone = some me →
        d.lat = some la → d.lon = some lo →
        dist origin (la, lo) ≤ NEARBY_RADIUS_KM →
        NearbyEntry.mk d (round2 (dist origin (la, lo))) ∈
          nearbyDonorsWithOrigin dist origin me pool) := by
  refine ⟨fun e he => ?_, fun d hd => ?_, fun d hst hc => ⟨fun e he heq => ?_, fun hmem => ?_⟩,
    fun d hd la lo hst hc hla hlo hdist =>
      nearbyWithOrigin_mem dist origin me pool d la lo hd hla hlo (Or.inr ⟨hst, hc⟩) hdist⟩
  · obtain ⟨-, la, lo, -, -, hvis, -, -⟩ := mem_nearbyWithOrigin dist origin me pool e he
    refine ⟨hvis, ?_, ?_⟩ <;> rcases hvis with h | ⟨h, -⟩ <;> simp [h]
  · obtain ⟨-, hvis, -⟩ := (mem_nearbyNoOrigin_iff me pool d).1 hd
    refine ⟨hvis, ?_, ?_⟩ <;> rcases hvis with h | ⟨h, -⟩ <;> simp [h]
  · obtain ⟨-, la, lo, -, -, hvis, -, -⟩ := mem_nearbyWithOrigin dist origin me pool e he
    rcases hvis with h | ⟨-, h⟩
    · rw [heq, hst] at h
      exact Status.noConfusion h
    · rw [heq] at h
      exact hc h
  · obtain ⟨-, hvis, -⟩ := (mem_nearbyNoOrigin_iff me pool d).1 hmem
    rcases hvis with h | ⟨-, h⟩
    · rw [hst] at h
      exact Status.noConfusion h
    · exact hc h

/-- An accepted-by-"111" donation on the equator 1.11 km east of (0,0). -/
def nearAcceptedMine : Donation :=
  { sampleAcceptedMine with
      lat := some 0
      lon := some (1 / 100) }

/-- Witness for the amended C7: the accepted-by-"111" donation within
radius appears in collector "111" results. -/
theorem visibility_scoping_amended_witness :
    NearbyEntry.mk nearAcceptedMine (round2 (distEq (0, 0) (0, 1 / 100))) ∈
      nearbyDonorsWithOrigin distEq (0, 0) "111" [nearAcceptedMine] :=
  (visibility_scoping_amended distEq (0, 0) "111" [nearAcceptedMine]).2.2.2
    nearAcceptedMine (by simp) 0 (1 / 100) rfl rfl rfl rfl
    (by norm_num [distEq, NEARBY_RADIUS_KM, abs_of_nonneg])

/-- C8 counterexample: an active donation whose resolved latitude is
exactly 0 is dropped by the no-origin fallback (Python truthiness
`if d.get("lat") and d.get("lon")`), refuting "all donations with
status active". -/
theorem no_origin_fallback_counterexample :
    zeroLatActive.status = Status.active ∧
    nearbyDonorsNoOrigin "222" [zeroLatActive] = [] :=
  ⟨rfl, by decide⟩

/-- C8 as amended: with no origin set, the nearby query returns exactly
the donations that are active or accepted by the requesting collector
and whose lat and lon are both non-null and non-zero, with no distance
filtering applied. -/
theorem no_origin_fallback_amended (me : String) (pool : List Donation) (d : Donation) :
    d ∈ nearbyDonorsNoOrigin me pool ↔
      d ∈ pool ∧
      (d.status = Status.active ∨
        (d.status = Status.accepted ∧ d.collector_phone = some me)) ∧
      truthyCoord d.lat = true ∧ truthyCoord d.lon = true :=
  mem_nearbyNoOrigin_iff me pool d

/-- C1: evaluation of the code at the racing-accepts input.  Two
sessions each load the same file with one active donation; each runs
the accept handler against its own stale copy and saves with a
whole-file replace.  Both stale copies pass the `status == "active"`
check, both sessions end with the record accepted by themselves (and
the source shows a success message unconditionally, `app.py:1086`), and
the final file holds only the later collector: the earlier acceptance
is silently overwritten and no IllegalTransition or
ConcurrentModification is ever surfaced.  Had the second check run
against the state committed by the first session it would have found no
active record. -/
theorem accept_race_both_succeed :
    acceptMatches [sampleActive] "d1" = true ∧
    (acceptPool "d1" "Alice" "111" 1 [sampleActive]).map
        (fun d => (d.status, d.collector_phone)) = [(Status.accepted, some "111")] ∧
    (acceptPool "d1" "Bob" "222" 2 [sampleActive]).map
        (fun d => (d.status, d.collector_phone)) = [(Status.accepted, some "222")] ∧
    lastWriteWins (acceptPool "d1" "Alice" "111" 1 [sampleActive])
        (acceptPool "d1" "Bob" "222" 2 [sampleActive]) =
      acceptPool "d1" "Bob" "222" 2 [sampleActive] ∧
    (lastWriteWins (acceptPool "d1" "Alice" "111" 1 [sampleActive])
        (acceptPool "d1" "Bob" "222" 2 [sampleActive])).map
        (fun d => d.collector_phone) = [some "222"] ∧
    acceptMatches (acceptPool "d1" "Alice" "111" 1 [sampleActive]) "d1" = false := by
  decide

end NurishHub
